import Mathlib

/-!
Shallow embedding of the authentication core of the blog-api repository
(TypeScript / Express / Mongoose / jsonwebtoken / bcrypt), together with
theorems settling the specification claims about it.

Conventions of the embedding:
* time is a natural number of seconds (JWT `iat` / `exp` claims);
* a JWT string is modelled by its parsed content together with the secret
  it was signed with (`Jwt.valid`) or as an arbitrary non-JWT string
  (`Jwt.malformed`); string equality of tokens corresponds to structural
  equality of this type, signatures are unforgeable;
* bcrypt is modelled ideally: a hash remembers the plaintext it was made
  from, `compare` succeeds exactly on that plaintext, hashes collide never;
* the document store is explicit state (`DB`), passed in and returned.
-/

namespace BlogApi

/-- Errors thrown by jsonwebtoken `verify`: `TokenExpiredError` or the
generic `JsonWebTokenError` (bad signature / malformed token). -/
inductive VerifyError where
  | tokenExpired
  | jsonWebTokenError
deriving DecidableEq, Repr

/-- A JWT string: either a well-formed signed token (payload `userId`,
claims `sub`, `iat`, `exp`, signed with `secret`), or a structurally
invalid string. -/
inductive Jwt where
  | valid (userId : Nat) (sub : String) (iat : Nat) (exp : Nat) (secret : String)
  | malformed (s : String)
deriving DecidableEq, Repr

/-- jsonwebtoken `jwt.sign({ userId }, secret, { expiresIn, subject })` at
time `now`: claims `iat = now`, `exp = now + expiresIn`, `sub = subject`. -/
def jwtSign (userId : Nat) (secret : String) (expiresIn : Nat)
    (subject : String) (now : Nat) : Jwt :=
  .valid userId subject now (now + expiresIn) secret

/-- jsonwebtoken `jwt.verify(token, secret)` at time `now`, as called in
`src/lib/jwt.ts` (no `subject` option, so the `sub` claim is NOT checked):
malformed token or wrong secret throws `JsonWebTokenError`; otherwise, if
`now ≥ exp`, throws `TokenExpiredError`; otherwise returns the payload
(`userId`). The signature check precedes the expiry check. -/
def jwtVerify (token : Jwt) (secret : String) (now : Nat) :
    Except VerifyError Nat :=
  match token with
  | .malformed _ => .error .jsonWebTokenError
  | .valid userId _sub _iat exp sec =>
    if sec ≠ secret then .error .jsonWebTokenError
    else if now ≥ exp then .error .tokenExpired
    else .ok userId

/-- The environment-derived configuration consumed by the token issuer and
the registration handler (`src/config/index.ts`). -/
structure AppConfig where
  jwtAccessSecret : String
  jwtRefreshSecret : String
  accessTokenExpiry : Nat
  jwtRefreshTokenExpiry : Nat
  whitelistAdminEmails : List String
deriving DecidableEq, Repr

/-- `generateAccessToken` from `src/lib/jwt.ts`: sign `{ userId }` with the
access secret, access TTL, subject `"accessApi"`. -/
def generateAccessToken (cfg : AppConfig) (userId : Nat) (now : Nat) : Jwt :=
  jwtSign userId cfg.jwtAccessSecret cfg.accessTokenExpiry "accessApi" now

/-- `generateRefreshToken` from `src/lib/jwt.ts`: sign `{ userId }` with the
refresh secret, refresh TTL, subject `"refreshToken"`. -/
def generateRefreshToken (cfg : AppConfig) (userId : Nat) (now : Nat) : Jwt :=
  jwtSign userId cfg.jwtRefreshSecret cfg.jwtRefreshTokenExpiry "refreshToken" now

/-- `verifyAccessToken` from `src/lib/jwt.ts`: `jwt.verify` with the access
secret and no further options. -/
def verifyAccessToken (cfg : AppConfig) (token : Jwt) (now : Nat) :
    Except VerifyError Nat :=
  jwtVerify token cfg.jwtAccessSecret now

/-- `verifyRefreshToken` from `src/lib/jwt.ts`: `jwt.verify` with the
refresh secret and no further options. -/
def verifyRefreshToken (cfg : AppConfig) (token : Jwt) (now : Nat) :
    Except VerifyError Nat :=
  jwtVerify token cfg.jwtRefreshSecret now

/-- A stored password value. `raw s` is a plaintext; `hashed cost p` is the
bcrypt hash (with the given cost factor) of the value `p`. Keeping the
pre-image makes the ideal-bcrypt `compare` definable; hashing a hashed
value yields a structurally different value, so re-hashing is observable. -/
inductive Password where
  | raw (s : String)
  | hashed (cost : Nat) (p : Password)
deriving DecidableEq, Repr

/-- bcrypt `compare(plain, stored)`: true exactly when `stored` is the hash
of the plaintext `plain`. Comparing against a non-hash string, or against a
double-hashed value, yields `false`. -/
def bcryptCompare (plain : String) (stored : Password) : Bool :=
  match stored with
  | .hashed _ (.raw s) => plain == s
  | _ => false

/-- A persisted user record (`user.model.ts`). Profile fields that no claim
touches are omitted. -/
structure UserRec where
  id : Nat
  username : String
  email : String
  password : Password
  role : String
deriving DecidableEq, Repr

/-- A Token Ledger row (`token.model.ts`): owning user id and the refresh
token string (unique). -/
structure TokenRecord where
  userId : Nat
  token : Jwt
deriving DecidableEq, Repr

/-- The document store: the User collection and the Token Ledger. -/
structure DB where
  users : List UserRec
  tokens : List TokenRecord
deriving DecidableEq, Repr

/-- The `userSchema.pre('save')` hook of `user.model.ts`: when the password
path is not modified it calls `next()` and leaves the document alone;
otherwise it replaces the password with `hash(password, 10)`. -/
def preSaveUser (u : UserRec) (passwordModified : Bool) : UserRec :=
  if passwordModified then { u with password := .hashed 10 u.password } else u

/-- JavaScript / mongoose `trim`: strip leading and trailing whitespace.
(Spelled on the character list so that it evaluates by kernel reduction;
`String.trim` itself is observationally the same function.) -/
def jsTrim (s : String) : String :=
  String.mk
    (((s.data.dropWhile Char.isWhitespace).reverse.dropWhile
      Char.isWhitespace).reverse)

/-- JavaScript / mongoose `lowercase`: lower-case every character. -/
def jsToLower (s : String) : String :=
  String.mk (s.data.map Char.toLower)

/-- `UserModel.create` (`auth.controller.ts` step): mongoose applies the
schema setters (`trim`, `lowercase` on email; `trim` on username), then the
schema validators (username 3–20 chars, email ≤ 50 chars, password ≥ 6
chars, role ∈ {user, admin}); the pre-save hook hashes the password; the
unique indexes on email and username make a duplicate write fail with an
E11000 duplicate key error. -/
def userCreate (db : DB) (email password role username : String)
    (newId : Nat) : Except String (UserRec × DB) :=
  let e := jsToLower (jsTrim email)
  let un := jsTrim username
  if un.length < 3 ∨ un.length > 20 then
    .error "User validation failed: username length"
  else if e.length > 50 ∨ e.isEmpty then
    .error "User validation failed: email"
  else if password.length < 6 then
    .error "User validation failed: password length"
  else if role ≠ "user" ∧ role ≠ "admin" then
    .error "User validation failed: role"
  else if db.users.any (fun u => u.email == e || u.username == un) then
    .error "E11000 duplicate key error"
  else
    let user : UserRec := ⟨newId, un, e, .hashed 10 (.raw password), role⟩
    .ok (user, { db with users := db.users ++ [user] })

/-- The base-36 digit characters `0..9a..z` used by
`Number.prototype.toString(36)`. -/
def base36Digit (n : Nat) : Char :=
  if n < 10 then Char.ofNat (48 + n) else Char.ofNat (87 + n)

/-- Carry step of V8's radix printing: pop trailing digits `35` and
increment the first smaller digit; `none` when the carry reaches the
integer part (all fraction digits were `35`). Operates on the reversed
digit list. -/
def v8RoundUpRev : List Nat → Option (List Nat)
  | [] => none
  | d :: rest => if d + 1 < 36 then some ((d + 1) :: rest) else v8RoundUpRev rest

/-- Round the written fraction digits up by one unit in the last place,
as V8's back-trace does; `none` means the carry overflowed into the
integer part and the fraction digits are gone. -/
def v8RoundUp (ds : List Nat) : Option (List Nat) :=
  (v8RoundUpRev ds.reverse).map List.reverse

/-- Bit length of a natural number (fuel-based so that it evaluates by
kernel reduction): `bitLen fuel n` is the number of binary digits of `n`
for any `fuel ≥` that number. -/
def bitLen : Nat → Nat → Nat
  | 0, _ => 0
  | fuel + 1, n => if n = 0 then 0 else bitLen fuel (n / 2) + 1

/-- The fraction-digit loop of V8's `DoubleToRadixCString` for radix 36.
The remaining fraction `f = a / 2^107` and the stopping threshold
`d = b / 2^107` are carried as the numerators `a`, `b` over the fixed
denominator `2^107`, so every step is exact natural arithmetic (the real
loop runs on doubles; its rounding error stays below the half-ulp
threshold for the digit counts reached here). Each step multiplies `f`
and `d` by 36, emits `⌊f⌋`, and stops once `f < d`, rounding the written
digits to nearest (ties to even) when the remainder plus the threshold
crosses 1. -/
def v8FracDigits : Nat → Nat → Nat → List Nat → List Nat
  | 0, _, _, ds => ds
  | fuel + 1, a, b, ds =>
    let a := a * 36
    let b := b * 36
    let digit := a / 2 ^ 107
    let a := a % 2 ^ 107
    let ds := ds ++ [digit]
    if 2 * a > 2 ^ 107 ∨ (2 * a = 2 ^ 107 ∧ digit % 2 = 1) then
      if a + b > 2 ^ 107 then (v8RoundUp ds).getD []
      else if a ≥ b then v8FracDigits fuel a b ds
      else ds
    else if a ≥ b then v8FracDigits fuel a b ds
    else ds

/-- `Number.prototype.toString(36)` on the double `m / 2^53` with
`0 ≤ m < 2^53` (the exact form of every V8 `Math.random()` outcome),
following V8's `DoubleToRadixCString`: `0` prints as `"0"`; otherwise the
integer part is `0`, the initial stopping threshold is half the ulp of the
value (the value lies in `[2^(L-54), 2^(L-53))` for `L` the bit length of
`m`, so the threshold is `2^(L-107)`), and the fraction digits come from
the delta-stopped loop (fraction `m/2^53 = m·2^54/2^107`, threshold
`2^(L-107) = 2^L/2^107`). A carry into the integer part would print `"1"`;
no `Math.random()` outcome reaches it, but the model keeps the branch. -/
def doubleToString36 (m : Nat) : String :=
  if m = 0 then "0"
  else
    let L := bitLen 54 m
    let a := m * 2 ^ 54
    let b := 2 ^ L
    if a < b then "0"
    else
      match v8FracDigits 54 a b [] with
      | [] => "1"
      | ds => "0." ++ String.mk (ds.map base36Digit)

/-- Model of `Math.random().toString(36).slice(2)` on the random outcome
`m` (the numerator of the double `m / 2^53` returned by `Math.random()`):
`slice(2)` drops the leading `0.`; for the outcome `0` the string `"0"`
loses everything. -/
def mathRandomString36Slice2 (m : Nat) : String :=
  (doubleToString36 (m % 2 ^ 53)).drop 2

/-- `generateUserName` from `src/utils/index.ts`, parameterized by the
outcome `m` of the random source:
`'user-' + Math.random().toString(36).slice(2)`. -/
def generateUserName (m : Nat) : String :=
  "user-" ++ mathRandomString36Slice2 m

/-- The result of one run of the refresh handler
(`token.controller.ts`): the HTTP status, the body fields `message` and
`code`, the issued token (body `data.token`) when any, whether
`verifyRefreshToken` was ever invoked on this run, the store after the run,
and the cookie set by the run (the refresh handler never sets one). -/
structure RefreshResult where
  status : Nat
  message : String
  code : String
  data : Option Jwt
  verifyInvoked : Bool
  dbAfter : DB
  cookieSet : Option Jwt
deriving DecidableEq, Repr

/-- `refreshTokenHandler` from `token.controller.ts`: read the
`refreshToken` cookie; `TokenModel.exists({ token: refreshToken })` — when
no ledger row matches the cookie string exactly (in particular when the
cookie is absent), answer 401 without ever calling `verifyRefreshToken`;
otherwise verify, mapping `TokenExpiredError` and `JsonWebTokenError` to
their distinct 401 bodies, and on success answer 200 with a fresh access
token minted for the verified payload's `userId`. -/
def refreshTokenHandler (cfg : AppConfig) (db : DB) (cookie : Option Jwt)
    (now : Nat) : RefreshResult :=
  let isTokenExists := db.tokens.any (fun r => some r.token == cookie)
  if !isTokenExists then
    ⟨401, "Invalid or expired refresh token", "AuthenticationError",
      none, false, db, none⟩
  else
    match cookie with
    | none =>
      ⟨401, "Invalid or expired refresh token", "AuthenticationError",
        none, false, db, none⟩
    | some t =>
      match verifyRefreshToken cfg t now with
      | .error .tokenExpired =>
        ⟨401, "Refresh token has expired", "AuthenticationError",
          none, true, db, none⟩
      | .error .jsonWebTokenError =>
        ⟨401, "Invalid refresh token", "AuthenticationError",
          none, true, db, none⟩
      | .ok userId =>
        ⟨200, "Access token refreshed successfully", "Success",
          some (generateAccessToken cfg userId now), true, db, none⟩

/-- The result of one run of a login handler (`login.controller.ts`). -/
structure LoginResult where
  status : Nat
  message : String
  errorDetail : Option String
  dbAfter : DB
  cookieSet : Option Jwt
  accessToken : Option Jwt
  userId : Option Nat
deriving DecidableEq, Repr

/-- `loginHandler`, the variant of `login.controller.ts` that verifies the
password in the handler (the variant with `compare` from bcrypt): look the
user up by email (password re-selected), 401 with the generic message when
absent; bcrypt-compare the password, the same generic 401 on mismatch; then
issue both tokens, save the ledger row (a duplicate token string violates
the unique index and lands in the catch block as a 500), set the
`refreshToken` cookie, and answer 200. -/
def loginHandler (cfg : AppConfig) (db : DB) (email password : String)
    (now : Nat) : LoginResult :=
  match db.users.find? (fun u => u.email == email) with
  | none => ⟨401, "Email or password is incorrect", none, db, none, none, none⟩
  | some user =>
    if !bcryptCompare password user.password then
      ⟨401, "Email or password is incorrect", none, db, none, none, none⟩
    else
      let accessToken := generateAccessToken cfg user.id now
      let refreshToken := generateRefreshToken cfg user.id now
      if db.tokens.any (fun r => r.token == refreshToken) then
        ⟨500, "Internal server error", some "E11000 duplicate key error",
          db, none, none, none⟩
      else
        ⟨200, "Login successful", none,
          { db with tokens := db.tokens ++ [⟨user.id, refreshToken⟩] },
          some refreshToken, some accessToken, some user.id⟩

/-- `loginHandler`, the current variant of `login.controller.ts` (file head,
no in-handler password check): look the user up by email, 401 with the
generic message when absent; otherwise issue tokens, save the ledger row,
set the cookie and answer 200 — the submitted password is never compared. -/
def loginHandlerNoPasswordCheck (cfg : AppConfig) (db : DB)
    (email password : String) (now : Nat) : LoginResult :=
  match db.users.find? (fun u => u.email == email) with
  | none => ⟨401, "Email or password is incorrect", none, db, none, none, none⟩
  | some user =>
    let accessToken := generateAccessToken cfg user.id now
    let refreshToken := generateRefreshToken cfg user.id now
    if db.tokens.any (fun r => r.token == refreshToken) then
      ⟨500, "Internal server error", some "E11000 duplicate key error",
        db, none, none, none⟩
    else
      ⟨200, "Login successful", none,
        { db with tokens := db.tokens ++ [⟨user.id, refreshToken⟩] },
        some refreshToken, some accessToken, some user.id⟩

/-- Simplified model of validator.js `isEmail` as used via
`.isEmail()` in `validation/common.ts`: exactly one `@` with nonempty
local part and domain. No claim depends on the finer points of the real
format check. -/
def validatorIsEmail (s : String) : Bool :=
  s.data.count '@' == 1 && s.data.head? != some '@' &&
    s.data.getLast? != some '@'

/-- `emailValidationForLogin` from `validation/common.ts`: trim (a
sanitizer, so later consumers of `req.body.email` see the trimmed value),
then `notEmpty`, `isLength({min:5})`, `isEmail`, then the custom check that
the email exists, failing with the generic credentials message.
`errors.mapped()` keeps the first failed validator per field, which this
first-failure result models. -/
def emailValidationForLoginError (db : DB) (email : String) : Option String :=
  let e := jsTrim email
  if e.isEmpty then some "Email is required"
  else if e.length < 5 then some "Email must be at least 5 characters long"
  else if !validatorIsEmail e then some "Email must be a valid email address"
  else if !db.users.any (fun u => u.email == e) then
    some "Email or password is incorrect"
  else none

/-- `passwordValidation` from `validation/common.ts`: `notEmpty`,
`isLength({min:8})`, then the custom check that looks the user up by
`req.body.email` (already trimmed by the email chain's sanitizer) and
bcrypt-compares the password, failing with the generic credentials message
in both the user-absent and the mismatch case. -/
def passwordValidationError (db : DB) (email password : String) :
    Option String :=
  if password.isEmpty then some "Password is required"
  else if password.length < 8 then
    some "Password must be at least 8 characters long"
  else
    match db.users.find? (fun u => u.email == jsTrim email) with
    | none => some "Email or password is incorrect"
    | some user =>
      if !bcryptCompare password user.password then
        some "Email or password is incorrect"
      else none

/-- The field-mapped validation errors of the login route's chain
(`auth.ts` route wiring: `emailValidationForLogin`, `passwordValidation`). -/
def loginValidationErrors (db : DB) (email password : String) :
    List (String × String) :=
  (match emailValidationForLoginError db email with
   | some m => [("email", m)]
   | none => []) ++
  (match passwordValidationError db email password with
   | some m => [("password", m)]
   | none => [])

/-- The result of one run of the full login route
(validation chain, `expressValidationMiddleware`, then the handler). -/
structure LoginPipelineResult where
  status : Nat
  errors : List (String × String)
  message : String
  dbAfter : DB
  cookieSet : Option Jwt
  accessToken : Option Jwt
deriving DecidableEq, Repr

/-- The `POST /auth/login` route (`auth.ts`): run the validation chain;
on any validation error `expressValidationMiddleware` answers 400 with the
field-mapped errors and the handler never runs; otherwise the current
handler variant (`loginHandlerNoPasswordCheck`) runs on the sanitized
(trimmed) email. -/
def loginPipeline (cfg : AppConfig) (db : DB) (email password : String)
    (now : Nat) : LoginPipelineResult :=
  let errs := loginValidationErrors db email password
  if errs.isEmpty then
    let r := loginHandlerNoPasswordCheck cfg db (jsTrim email) password now
    ⟨r.status, [], r.message, r.dbAfter, r.cookieSet, r.accessToken⟩
  else
    ⟨400, errs, "", db, none, none⟩

/-- The result of one run of the registration handler
(`auth.controller.ts`). `statusField` is the body's `status` field
(`AuthorizationError` / `ServerError`), `errorDetail` the body's `error`
field when present. -/
structure RegisterResult where
  status : Nat
  statusField : String
  message : String
  errorDetail : Option String
  dbAfter : DB
  cookieSet : Option Jwt
  accessToken : Option Jwt
deriving DecidableEq, Repr

/-- `registerUser` from `auth.controller.ts`: when `role === 'admin'` and
the submitted email is not in `WHITELIST_ADMIN_EMAIL_LIST`, answer 403
with `status: 'AuthorizationError'` before anything else runs; otherwise
generate a username from the random outcome, `UserModel.create` (its
failure lands in the catch block, which answers 500 with
`message: 'Internal server error'` AND the raw error in the body's `error`
field), issue both tokens, save the ledger row (duplicate token string
also lands in the catch block), set the cookie, answer 200. -/
def registerUser (cfg : AppConfig) (db : DB) (email password role : String)
    (rand : Nat) (now : Nat) (newId : Nat) : RegisterResult :=
  if role == "admin" && !cfg.whitelistAdminEmails.contains email then
    ⟨403, "AuthorizationError",
      "You are not allowed to register as an admin.", none, db, none, none⟩
  else
    let username := generateUserName rand
    match userCreate db email password role username newId with
    | .error err =>
      ⟨500, "ServerError", "Internal server error", some err, db, none, none⟩
    | .ok (user, db1) =>
      let accessToken := generateAccessToken cfg user.id now
      let refreshToken := generateRefreshToken cfg user.id now
      if db1.tokens.any (fun r => r.token == refreshToken) then
        ⟨500, "ServerError", "Internal server error",
          some "E11000 duplicate key error", db1, none, none⟩
      else
        ⟨200, "Success", "", none,
          { db1 with tokens := db1.tokens ++ [⟨user.id, refreshToken⟩] },
          some refreshToken, some accessToken⟩

/-! ## Theorems about the claims -/

/-- Claim C1, as stated, is false on the code: under equal signing secrets
the subject discriminator does NOT distinguish the token kinds, because
`jwt.verify` is called without a `subject` option. Concretely, with both
secrets `"s"`, a fresh access token (whose `sub` claim is `"accessApi"`)
is accepted by `verifyRefreshToken`, and a fresh refresh token is accepted
by `verifyAccessToken`. -/
theorem C1_sharedSecret_crossVerification_accepted :
    generateAccessToken ⟨"s", "s", 300, 604800, []⟩ 7 0 =
      .valid 7 "accessApi" 0 300 "s" ∧
    verifyRefreshToken ⟨"s", "s", 300, 604800, []⟩
      (generateAccessToken ⟨"s", "s", 300, 604800, []⟩ 7 0) 0 = .ok 7 ∧
    verifyAccessToken ⟨"s", "s", 300, 604800, []⟩
      (generateRefreshToken ⟨"s", "s", 300, 604800, []⟩ 7 0) 0 = .ok 7 := by
  refine ⟨rfl, rfl, rfl⟩

/-- Claim C1, amended: cross-verification is rejected exactly because the
signing secrets differ, not because of the subject discriminator — for
every configuration whose access and refresh secrets are distinct, a token
issued by `generateAccessToken` is rejected by `verifyRefreshToken` (with
`JsonWebTokenError`, at every verification time), and symmetrically. -/
theorem C1_crossVerification_rejected_iff_secrets_distinct
    (cfg : AppConfig) (u now now' : Nat)
    (h : cfg.jwtAccessSecret ≠ cfg.jwtRefreshSecret) :
    verifyRefreshToken cfg (generateAccessToken cfg u now) now' =
      .error .jsonWebTokenError ∧
    verifyAccessToken cfg (generateRefreshToken cfg u now) now' =
      .error .jsonWebTokenError := by
  constructor
  · simp [verifyRefreshToken, generateAccessToken, jwtSign, jwtVerify, h]
  · simp [verifyAccessToken, generateRefreshToken, jwtSign, jwtVerify,
      Ne.symm h]

/-- Witness for the amended C1 at a concrete configuration with distinct
secrets. -/
theorem C1_crossVerification_witness :
    verifyRefreshToken ⟨"asec", "rsec", 300, 604800, []⟩
      (generateAccessToken ⟨"asec", "rsec", 300, 604800, []⟩ 7 0) 9 =
      .error .jsonWebTokenError ∧
    verifyAccessToken ⟨"asec", "rsec", 300, 604800, []⟩
      (generateRefreshToken ⟨"asec", "rsec", 300, 604800, []⟩ 7 0) 9 =
      .error .jsonWebTokenError :=
  C1_crossVerification_rejected_iff_secrets_distinct
    ⟨"asec", "rsec", 300, 604800, []⟩ 7 0 9 (by decide)

/-- Claim C2: a refresh request whose token matches no Token Ledger row
exactly is answered 401 (with the generic body) and cryptographic
verification is never invoked — the run is fully determined, the store is
untouched and no cookie is set. -/
theorem C2_ledger_absent_token_rejected_before_verification
    (cfg : AppConfig) (db : DB) (t : Jwt) (now : Nat)
    (h : ∀ r ∈ db.tokens, r.token ≠ t) :
    refreshTokenHandler cfg db (some t) now =
      ⟨401, "Invalid or expired refresh token", "AuthenticationError",
        none, false, db, none⟩ := by
  have hany : db.tokens.any (fun r => some r.token == some t) = false := by
    simp only [List.any_eq_false]
    intro r hr
    simp [h r hr]
  dsimp only [refreshTokenHandler]
  rw [hany]
  rfl

/-- Witness for C2: a validly-signed refresh token absent from a nonempty
ledger is rejected without verification. -/
theorem C2_ledger_absent_witness :
    refreshTokenHandler ⟨"asec", "rsec", 300, 604800, []⟩
      ⟨[], [⟨1, .malformed "other"⟩]⟩
      (some (.valid 1 "refreshToken" 0 604800 "rsec")) 5 =
      ⟨401, "Invalid or expired refresh token", "AuthenticationError",
        none, false, ⟨[], [⟨1, .malformed "other"⟩]⟩, none⟩ :=
  C2_ledger_absent_token_rejected_before_verification
    ⟨"asec", "rsec", 300, 604800, []⟩ ⟨[], [⟨1, .malformed "other"⟩]⟩
    (.valid 1 "refreshToken" 0 604800 "rsec") 5 (by decide)

/-- Claim C3, as stated, is false on the code: on the refresh path two
failing runs (a ledger-present expired token and a ledger-present
structurally invalid token) return different messages, so the failing runs
do not all carry the identical generic message. -/
theorem C3_refresh_messages_distinguish_failures :
    (refreshTokenHandler ⟨"asec", "rsec", 300, 604800, []⟩
        ⟨[], [⟨1, .valid 1 "refreshToken" 0 10 "rsec"⟩,
              ⟨1, .malformed "garbage"⟩]⟩
        (some (.valid 1 "refreshToken" 0 10 "rsec")) 100).status = 401 ∧
    (refreshTokenHandler ⟨"asec", "rsec", 300, 604800, []⟩
        ⟨[], [⟨1, .valid 1 "refreshToken" 0 10 "rsec"⟩,
              ⟨1, .malformed "garbage"⟩]⟩
        (some (.malformed "garbage")) 100).status = 401 ∧
    (refreshTokenHandler ⟨"asec", "rsec", 300, 604800, []⟩
        ⟨[], [⟨1, .valid 1 "refreshToken" 0 10 "rsec"⟩,
              ⟨1, .malformed "garbage"⟩]⟩
        (some (.valid 1 "refreshToken" 0 10 "rsec")) 100).message ≠
      (refreshTokenHandler ⟨"asec", "rsec", 300, 604800, []⟩
        ⟨[], [⟨1, .valid 1 "refreshToken" 0 10 "rsec"⟩,
              ⟨1, .malformed "garbage"⟩]⟩
        (some (.malformed "garbage")) 100).message := by
  refine ⟨rfl, rfl, by decide⟩

/-- Claim C3, amended: on the login path (the password-verifying handler
variant) an unknown email and a wrong password produce identical whole
responses; on the refresh path every failing run carries status 401 and
code `AuthenticationError`, but the message distinguishes an expired from
a structurally invalid token. -/
theorem C3_login_uniform_refresh_status_uniform :
    (∀ (cfg : AppConfig) (db : DB) (e1 p1 e2 p2 : String) (now now' : Nat)
      (u : UserRec),
      db.users.find? (fun v => v.email == e1) = none →
      db.users.find? (fun v => v.email == e2) = some u →
      bcryptCompare p2 u.password = false →
      loginHandler cfg db e1 p1 now = loginHandler cfg db e2 p2 now') ∧
    (∀ (cfg : AppConfig) (db : DB) (cookie : Option Jwt) (now : Nat),
      (refreshTokenHandler cfg db cookie now).status ≠ 200 →
      (refreshTokenHandler cfg db cookie now).status = 401 ∧
      (refreshTokenHandler cfg db cookie now).code = "AuthenticationError") := by
  constructor
  · intro cfg db e1 p1 e2 p2 now now' u h1 h2 h3
    simp [loginHandler, h1, h2, h3]
  · intro cfg db cookie now h
    match cookie with
    | none =>
      dsimp only [refreshTokenHandler]
      cases hany : db.tokens.any (fun r => some r.token == none) <;>
        exact ⟨rfl, rfl⟩
    | some t =>
      dsimp only [refreshTokenHandler] at h ⊢
      revert h
      cases hany : db.tokens.any (fun r => some r.token == some t) with
      | false => intro h; exact ⟨rfl, rfl⟩
      | true =>
        cases hv : verifyRefreshToken cfg t now with
        | error e => cases e <;> intro h <;> exact ⟨rfl, rfl⟩
        | ok v => intro h; exact absurd rfl h

/-- Witness for the amended C3 at concrete inputs: an unknown email and a
wrong password give the same login response, and a ledger-absent refresh
run is a 401 with code `AuthenticationError`. -/
theorem C3_login_uniform_witness :
    loginHandler ⟨"asec", "rsec", 300, 604800, []⟩
      ⟨[⟨1, "user-abc", "a@x.com", .hashed 10 (.raw "correcthorse"), "user"⟩],
        []⟩ "nobody@x.com" "pw123456" 0 =
      loginHandler ⟨"asec", "rsec", 300, 604800, []⟩
      ⟨[⟨1, "user-abc", "a@x.com", .hashed 10 (.raw "correcthorse"), "user"⟩],
        []⟩ "a@x.com" "wrongpass99" 3 ∧
    (refreshTokenHandler ⟨"asec", "rsec", 300, 604800, []⟩ ⟨[], []⟩
        (some (.malformed "zzz")) 0).status = 401 ∧
    (refreshTokenHandler ⟨"asec", "rsec", 300, 604800, []⟩ ⟨[], []⟩
        (some (.malformed "zzz")) 0).code = "AuthenticationError" :=
  ⟨C3_login_uniform_refresh_status_uniform.1
      ⟨"asec", "rsec", 300, 604800, []⟩
      ⟨[⟨1, "user-abc", "a@x.com", .hashed 10 (.raw "correcthorse"), "user"⟩],
        []⟩ "nobody@x.com" "pw123456" "a@x.com" "wrongpass99" 0 3
      ⟨1, "user-abc", "a@x.com", .hashed 10 (.raw "correcthorse"), "user"⟩
      (by decide) (by decide) (by decide),
    C3_login_uniform_refresh_status_uniform.2
      ⟨"asec", "rsec", 300, 604800, []⟩ ⟨[], []⟩
      (some (.malformed "zzz")) 0 (by decide)⟩

/-- Claim C4, as stated, is false on the code: with a stored user whose
password hash does not match the submitted password, the login route
answers 400 (from the validation middleware), not 401 — and the current
login handler on its own, having no password check, would answer 200. -/
theorem C4_wrong_password_not_401 :
    (loginPipeline ⟨"asec", "rsec", 300, 604800, []⟩
        ⟨[⟨1, "user-abc", "a@x.com", .hashed 10 (.raw "correcthorse"),
            "user"⟩], []⟩
        "a@x.com" "wrongpass99" 0).status ≠ 401 ∧
    (loginPipeline ⟨"asec", "rsec", 300, 604800, []⟩
        ⟨[⟨1, "user-abc", "a@x.com", .hashed 10 (.raw "correcthorse"),
            "user"⟩], []⟩
        "a@x.com" "wrongpass99" 0).status = 400 ∧
    (loginHandlerNoPasswordCheck ⟨"asec", "rsec", 300, 604800, []⟩
        ⟨[⟨1, "user-abc", "a@x.com", .hashed 10 (.raw "correcthorse"),
            "user"⟩], []⟩
        "a@x.com" "wrongpass99" 0).status = 200 := by
  refine ⟨by decide, rfl, rfl⟩

/-- Claim C4, amended: a login request whose email is stored but whose
password fails the bcrypt comparison is rejected before the handler by
the `passwordValidation` middleware — the route answers 400 with the
field-mapped generic message `Email or password is incorrect`, the store
is unchanged, and no cookie and no access token are produced (the current
login handler itself performs no password check). -/
theorem C4_wrong_password_rejected_by_validation
    (cfg : AppConfig) (db : DB) (email password : String) (now : Nat)
    (u : UserRec)
    (hemail : emailValidationForLoginError db email = none)
    (hfind : db.users.find? (fun v => v.email == jsTrim email) = some u)
    (hcmp : bcryptCompare password u.password = false)
    (hne : password.isEmpty = false)
    (hlen : 8 ≤ password.length) :
    loginPipeline cfg db email password now =
      ⟨400, [("password", "Email or password is incorrect")], "",
        db, none, none⟩ := by
  have hlt : ¬ password.length < 8 := by omega
  have hpw : passwordValidationError db email password =
      some "Email or password is incorrect" := by
    unfold passwordValidationError
    rw [hne, if_neg (show ¬ false = true by decide), if_neg hlt, hfind]
    dsimp only
    rw [hcmp]
    rfl
  have herrs : loginValidationErrors db email password =
      [("password", "Email or password is incorrect")] := by
    rw [loginValidationErrors, hemail, hpw]
    rfl
  rw [loginPipeline, herrs]
  rfl

/-- Witness for the amended C4 at a concrete store and request. -/
theorem C4_wrong_password_witness :
    loginPipeline ⟨"asec", "rsec", 300, 604800, []⟩
      ⟨[⟨1, "user-abc", "a@x.com", .hashed 10 (.raw "correcthorse"),
          "user"⟩], []⟩
      "a@x.com" "wrongpass99" 0 =
      ⟨400, [("password", "Email or password is incorrect")], "",
        ⟨[⟨1, "user-abc", "a@x.com", .hashed 10 (.raw "correcthorse"),
            "user"⟩], []⟩, none, none⟩ :=
  C4_wrong_password_rejected_by_validation
    ⟨"asec", "rsec", 300, 604800, []⟩
    ⟨[⟨1, "user-abc", "a@x.com", .hashed 10 (.raw "correcthorse"),
        "user"⟩], []⟩
    "a@x.com" "wrongpass99" 0
    ⟨1, "user-abc", "a@x.com", .hashed 10 (.raw "correcthorse"), "user"⟩
    (by decide) (by decide) (by decide) (by decide) (by decide)

/-- Claim C5: registering with role `admin` and an email outside the
configured allowlist answers 403 with `status: 'AuthorizationError'` and
has no side effects — the store is returned unchanged, no cookie is set,
no access token is issued and no error detail is produced. -/
theorem C5_admin_not_allowlisted_403_no_side_effects
    (cfg : AppConfig) (db : DB) (email password : String)
    (rand now newId : Nat)
    (h : cfg.whitelistAdminEmails.contains email = false) :
    registerUser cfg db email password "admin" rand now newId =
      ⟨403, "AuthorizationError",
        "You are not allowed to register as an admin.",
        none, db, none, none⟩ := by
  rw [registerUser, h]
  rfl

/-- Witness for C5 at a concrete allowlist and request. -/
theorem C5_admin_not_allowlisted_witness :
    registerUser ⟨"asec", "rsec", 300, 604800, ["boss@x.com"]⟩
      ⟨[], []⟩ "eve@x.com" "password1" "admin" 4503599627370496 0 1 =
      ⟨403, "AuthorizationError",
        "You are not allowed to register as an admin.",
        none, ⟨[], []⟩, none, none⟩ :=
  C5_admin_not_allowlisted_403_no_side_effects
    ⟨"asec", "rsec", 300, 604800, ["boss@x.com"]⟩
    ⟨[], []⟩ "eve@x.com" "password1" 4503599627370496 0 1 (by decide)

/-- Claim C6, as stated, is false on the code: a registration that fails
at the persistence step (here: duplicate email) answers 500, but the
response body does NOT carry only a sanitized message — the catch block
sends the raw error in the body's `error` field. -/
theorem C6_persistence_error_detail_disclosed :
    (registerUser ⟨"asec", "rsec", 300, 604800, []⟩
        ⟨[⟨1, "user-abc", "a@x.com", .hashed 10 (.raw "correcthorse"),
            "user"⟩], []⟩
        "a@x.com" "password1" "user" 4503599627370496 0 2).status = 500 ∧
    (registerUser ⟨"asec", "rsec", 300, 604800, []⟩
        ⟨[⟨1, "user-abc", "a@x.com", .hashed 10 (.raw "correcthorse"),
            "user"⟩], []⟩
        "a@x.com" "password1" "user" 4503599627370496 0 2).errorDetail =
      some "E11000 duplicate key error" := by
  refine ⟨rfl, rfl⟩

/-- Claim C6, amended: a registration reaching the persistence step and
failing there answers 500 with `status: 'ServerError'` and the sanitized
message `Internal server error`, but the body additionally carries the
raw error detail in its `error` field; the store, cookie and access token
are untouched. -/
theorem C6_persistence_error_500_with_raw_detail
    (cfg : AppConfig) (db : DB) (email password role : String)
    (rand now newId : Nat) (err : String)
    (hrole : (role == "admin" &&
      !cfg.whitelistAdminEmails.contains email) = false)
    (hcreate : userCreate db email password role (generateUserName rand)
      newId = .error err) :
    registerUser cfg db email password role rand now newId =
      ⟨500, "ServerError", "Internal server error", some err,
        db, none, none⟩ := by
  rw [registerUser, hrole]
  dsimp only
  rw [hcreate]
  rfl

/-- Witness for the amended C6: a duplicate email makes `UserModel.create`
fail and the 500 body carries the raw E11000 detail. -/
theorem C6_persistence_error_witness :
    registerUser ⟨"asec", "rsec", 300, 604800, []⟩
      ⟨[⟨1, "user-abc", "a@x.com", .hashed 10 (.raw "correcthorse"),
          "user"⟩], []⟩
      "a@x.com" "password1" "user" 4503599627370496 0 2 =
      ⟨500, "ServerError", "Internal server error",
        some "E11000 duplicate key error",
        ⟨[⟨1, "user-abc", "a@x.com", .hashed 10 (.raw "correcthorse"),
            "user"⟩], []⟩, none, none⟩ :=
  C6_persistence_error_500_with_raw_detail
    ⟨"asec", "rsec", 300, 604800, []⟩
    ⟨[⟨1, "user-abc", "a@x.com", .hashed 10 (.raw "correcthorse"),
        "user"⟩], []⟩
    "a@x.com" "password1" "user" 4503599627370496 0 2
    "E11000 duplicate key error" (by decide) rfl

/-- Claim C7: the pre-save hook leaves the whole document — in particular
the stored password — unchanged when the password path is not modified,
and hashes the password (cost 10) exactly when it is. -/
theorem C7_presave_hashes_iff_password_modified (u : UserRec) :
    preSaveUser u false = u ∧
    (preSaveUser u true).password = .hashed 10 u.password := by
  constructor
  · rfl
  · rfl

/-- Claim C8: a refresh token minted by a successful login (the same
issuance steps as registration) and recorded in the Token Ledger, when
presented to the refresh handler while still unexpired, yields a 200
response carrying a new access token that `verifyAccessToken` accepts;
the store (in particular the original ledger entry) is unchanged by the
refresh run and the refresh run sets no cookie. -/
theorem C8_refresh_round_trip
    (cfg : AppConfig) (db : DB) (email password : String)
    (t0 now : Nat) (u : UserRec)
    (hfind : db.users.find? (fun v => v.email == email) = some u)
    (hcmp : bcryptCompare password u.password = true)
    (hdup : db.tokens.any
      (fun r => r.token == generateRefreshToken cfg u.id t0) = false)
    (hfresh : now < t0 + cfg.jwtRefreshTokenExpiry)
    (httl : 0 < cfg.accessTokenExpiry) :
    (loginHandler cfg db email password t0).status = 200 ∧
    (loginHandler cfg db email password t0).cookieSet =
      some (generateRefreshToken cfg u.id t0) ∧
    (refreshTokenHandler cfg (loginHandler cfg db email password t0).dbAfter
      (loginHandler cfg db email password t0).cookieSet now).status = 200 ∧
    (refreshTokenHandler cfg (loginHandler cfg db email password t0).dbAfter
      (loginHandler cfg db email password t0).cookieSet now).data =
      some (generateAccessToken cfg u.id now) ∧
    verifyAccessToken cfg (generateAccessToken cfg u.id now) now =
      .ok u.id ∧
    (refreshTokenHandler cfg (loginHandler cfg db email password t0).dbAfter
      (loginHandler cfg db email password t0).cookieSet now).dbAfter =
      (loginHandler cfg db email password t0).dbAfter ∧
    (refreshTokenHandler cfg (loginHandler cfg db email password t0).dbAfter
      (loginHandler cfg db email password t0).cookieSet now).cookieSet =
      none := by
  have hlr : loginHandler cfg db email password t0 =
      ⟨200, "Login successful", none,
        ⟨db.users,
          db.tokens ++ [⟨u.id, generateRefreshToken cfg u.id t0⟩]⟩,
        some (generateRefreshToken cfg u.id t0),
        some (generateAccessToken cfg u.id t0), some u.id⟩ := by
    unfold loginHandler
    rw [hfind]
    dsimp only
    rw [hcmp, hdup]
    rfl
  have hv : verifyRefreshToken cfg (generateRefreshToken cfg u.id t0) now =
      .ok u.id := by
    unfold verifyRefreshToken generateRefreshToken jwtSign jwtVerify
    dsimp only
    rw [if_neg (show ¬ cfg.jwtRefreshSecret ≠ cfg.jwtRefreshSecret from
          fun h => h rfl),
        if_neg (show ¬ now ≥ t0 + cfg.jwtRefreshTokenExpiry by omega)]
  have hany : (db.tokens ++
      [⟨u.id, generateRefreshToken cfg u.id t0⟩] : List TokenRecord).any
      (fun r => some r.token ==
        some (generateRefreshToken cfg u.id t0)) = true := by
    simp [List.any_append]
  have haccess : verifyAccessToken cfg (generateAccessToken cfg u.id now)
      now = .ok u.id := by
    unfold verifyAccessToken generateAccessToken jwtSign jwtVerify
    dsimp only
    rw [if_neg (show ¬ cfg.jwtAccessSecret ≠ cfg.jwtAccessSecret from
          fun h => h rfl),
        if_neg (show ¬ now ≥ now + cfg.accessTokenExpiry by omega)]
  have hrr : refreshTokenHandler cfg
      ⟨db.users, db.tokens ++ [⟨u.id, generateRefreshToken cfg u.id t0⟩]⟩
      (some (generateRefreshToken cfg u.id t0)) now =
      ⟨200, "Access token refreshed successfully", "Success",
        some (generateAccessToken cfg u.id now), true,
        ⟨db.users,
          db.tokens ++ [⟨u.id, generateRefreshToken cfg u.id t0⟩]⟩,
        none⟩ := by
    unfold refreshTokenHandler
    rw [hany]
    dsimp only
    rw [hv]
    rfl
  rw [hlr]
  exact ⟨rfl, rfl, by rw [hrr], by rw [hrr], haccess, by rw [hrr], by
    rw [hrr]⟩

/-- Witness for C8 at a concrete store: login with the stored credentials
at time 0, refresh the issued token at time 100. -/
theorem C8_refresh_round_trip_witness :
    (loginHandler ⟨"asec", "rsec", 300, 604800, []⟩
      ⟨[⟨1, "user-abc", "a@x.com", .hashed 10 (.raw "correcthorse"),
          "user"⟩], []⟩ "a@x.com" "correcthorse" 0).status = 200 ∧
    (loginHandler ⟨"asec", "rsec", 300, 604800, []⟩
      ⟨[⟨1, "user-abc", "a@x.com", .hashed 10 (.raw "correcthorse"),
          "user"⟩], []⟩ "a@x.com" "correcthorse" 0).cookieSet =
      some (generateRefreshToken ⟨"asec", "rsec", 300, 604800, []⟩ 1 0) ∧
    (refreshTokenHandler ⟨"asec", "rsec", 300, 604800, []⟩
      (loginHandler ⟨"asec", "rsec", 300, 604800, []⟩
        ⟨[⟨1, "user-abc", "a@x.com", .hashed 10 (.raw "correcthorse"),
            "user"⟩], []⟩ "a@x.com" "correcthorse" 0).dbAfter
      (loginHandler ⟨"asec", "rsec", 300, 604800, []⟩
        ⟨[⟨1, "user-abc", "a@x.com", .hashed 10 (.raw "correcthorse"),
            "user"⟩], []⟩ "a@x.com" "correcthorse" 0).cookieSet
      100).status = 200 ∧
    (refreshTokenHandler ⟨"asec", "rsec", 300, 604800, []⟩
      (loginHandler ⟨"asec", "rsec", 300, 604800, []⟩
        ⟨[⟨1, "user-abc", "a@x.com", .hashed 10 (.raw "correcthorse"),
            "user"⟩], []⟩ "a@x.com" "correcthorse" 0).dbAfter
      (loginHandler ⟨"asec", "rsec", 300, 604800, []⟩
        ⟨[⟨1, "user-abc", "a@x.com", .hashed 10 (.raw "correcthorse"),
            "user"⟩], []⟩ "a@x.com" "correcthorse" 0).cookieSet
      100).data =
      some (generateAccessToken ⟨"asec", "rsec", 300, 604800, []⟩ 1 100) ∧
    verifyAccessToken ⟨"asec", "rsec", 300, 604800, []⟩
      (generateAccessToken ⟨"asec", "rsec", 300, 604800, []⟩ 1 100) 100 =
      .ok 1 ∧
    (refreshTokenHandler ⟨"asec", "rsec", 300, 604800, []⟩
      (loginHandler ⟨"asec", "rsec", 300, 604800, []⟩
        ⟨[⟨1, "user-abc", "a@x.com", .hashed 10 (.raw "correcthorse"),
            "user"⟩], []⟩ "a@x.com" "correcthorse" 0).dbAfter
      (loginHandler ⟨"asec", "rsec", 300, 604800, []⟩
        ⟨[⟨1, "user-abc", "a@x.com", .hashed 10 (.raw "correcthorse"),
            "user"⟩], []⟩ "a@x.com" "correcthorse" 0).cookieSet
      100).dbAfter =
      (loginHandler ⟨"asec", "rsec", 300, 604800, []⟩
        ⟨[⟨1, "user-abc", "a@x.com", .hashed 10 (.raw "correcthorse"),
            "user"⟩], []⟩ "a@x.com" "correcthorse" 0).dbAfter ∧
    (refreshTokenHandler ⟨"asec", "rsec", 300, 604800, []⟩
      (loginHandler ⟨"asec", "rsec", 300, 604800, []⟩
        ⟨[⟨1, "user-abc", "a@x.com", .hashed 10 (.raw "correcthorse"),
            "user"⟩], []⟩ "a@x.com" "correcthorse" 0).dbAfter
      (loginHandler ⟨"asec", "rsec", 300, 604800, []⟩
        ⟨[⟨1, "user-abc", "a@x.com", .hashed 10 (.raw "correcthorse"),
            "user"⟩], []⟩ "a@x.com" "correcthorse" 0).cookieSet
      100).cookieSet = none :=
  C8_refresh_round_trip ⟨"asec", "rsec", 300, 604800, []⟩
    ⟨[⟨1, "user-abc", "a@x.com", .hashed 10 (.raw "correcthorse"),
        "user"⟩], []⟩ "a@x.com" "correcthorse" 0 100
    ⟨1, "user-abc", "a@x.com", .hashed 10 (.raw "correcthorse"), "user"⟩
    (by decide) (by decide) (by decide) (by decide) (by decide)

/-- Claim C9: the refresh handler never consults the Credential Store —
its response (status, message, code, issued token) is the same for any two
user collections over the same ledger — and it never compares the matching
ledger row's `userId` with the verified payload: whenever the presented
token is some row's token (with an arbitrary stored `userId` `w`) and
refresh verification returns payload user id `u`, it answers 200 with a
fresh access token minted for `u`. -/
theorem C9_refresh_ignores_users_and_ledger_userId :
    (∀ (cfg : AppConfig) (users users' : List UserRec)
      (tokens : List TokenRecord) (cookie : Option Jwt) (now : Nat),
      (refreshTokenHandler cfg ⟨users, tokens⟩ cookie now).status =
        (refreshTokenHandler cfg ⟨users', tokens⟩ cookie now).status ∧
      (refreshTokenHandler cfg ⟨users, tokens⟩ cookie now).message =
        (refreshTokenHandler cfg ⟨users', tokens⟩ cookie now).message ∧
      (refreshTokenHandler cfg ⟨users, tokens⟩ cookie now).code =
        (refreshTokenHandler cfg ⟨users', tokens⟩ cookie now).code ∧
      (refreshTokenHandler cfg ⟨users, tokens⟩ cookie now).data =
        (refreshTokenHandler cfg ⟨users', tokens⟩ cookie now).data) ∧
    (∀ (cfg : AppConfig) (db : DB) (t : Jwt) (now w u : Nat),
      (⟨w, t⟩ : TokenRecord) ∈ db.tokens →
      verifyRefreshToken cfg t now = .ok u →
      (refreshTokenHandler cfg db (some t) now).status = 200 ∧
      (refreshTokenHandler cfg db (some t) now).data =
        some (generateAccessToken cfg u now)) := by
  constructor
  · intro cfg users users' tokens cookie now
    match cookie with
    | none =>
      dsimp only [refreshTokenHandler]
      cases hany : tokens.any (fun r => some r.token == none) <;>
        exact ⟨rfl, rfl, rfl, rfl⟩
    | some t =>
      dsimp only [refreshTokenHandler]
      cases hany : tokens.any (fun r => some r.token == some t) with
      | false => exact ⟨rfl, rfl, rfl, rfl⟩
      | true =>
        cases hv : verifyRefreshToken cfg t now with
        | error e => cases e <;> exact ⟨rfl, rfl, rfl, rfl⟩
        | ok v => exact ⟨rfl, rfl, rfl, rfl⟩
  · intro cfg db t now w u hmem hv
    have hany : db.tokens.any (fun r => some r.token == some t) = true :=
      List.any_eq_true.mpr ⟨⟨w, t⟩, hmem, by simp⟩
    dsimp only [refreshTokenHandler]
    rw [hany, hv]
    exact ⟨rfl, rfl⟩

/-- Witness for C9: the response is identical whether the user collection
holds a user or is empty, and a ledger row whose stored `userId` (7)
differs from the verified payload id (42) — with no user 42 anywhere —
still yields a 200 minting for 42. -/
theorem C9_refresh_ignores_users_witness :
    ((refreshTokenHandler ⟨"asec", "rsec", 300, 604800, []⟩
        ⟨[⟨1, "user-abc", "a@x.com", .hashed 10 (.raw "correcthorse"),
            "user"⟩], [⟨7, .valid 42 "refreshToken" 0 604800 "rsec"⟩]⟩
        (some (.valid 42 "refreshToken" 0 604800 "rsec")) 100).status =
      (refreshTokenHandler ⟨"asec", "rsec", 300, 604800, []⟩
        ⟨[], [⟨7, .valid 42 "refreshToken" 0 604800 "rsec"⟩]⟩
        (some (.valid 42 "refreshToken" 0 604800 "rsec")) 100).status) ∧
    (refreshTokenHandler ⟨"asec", "rsec", 300, 604800, []⟩
      ⟨[], [⟨7, .valid 42 "refreshToken" 0 604800 "rsec"⟩]⟩
      (some (.valid 42 "refreshToken" 0 604800 "rsec")) 100).status = 200 ∧
    (refreshTokenHandler ⟨"asec", "rsec", 300, 604800, []⟩
      ⟨[], [⟨7, .valid 42 "refreshToken" 0 604800 "rsec"⟩]⟩
      (some (.valid 42 "refreshToken" 0 604800 "rsec")) 100).data =
      some (generateAccessToken ⟨"asec", "rsec", 300, 604800, []⟩ 42 100) :=
  ⟨(C9_refresh_ignores_users_and_ledger_userId.1
      ⟨"asec", "rsec", 300, 604800, []⟩
      [⟨1, "user-abc", "a@x.com", .hashed 10 (.raw "correcthorse"), "user"⟩]
      [] [⟨7, .valid 42 "refreshToken" 0 604800 "rsec"⟩]
      (some (.valid 42 "refreshToken" 0 604800 "rsec")) 100).1,
    C9_refresh_ignores_users_and_ledger_userId.2
      ⟨"asec", "rsec", 300, 604800, []⟩
      ⟨[], [⟨7, .valid 42 "refreshToken" 0 604800 "rsec"⟩]⟩
      (.valid 42 "refreshToken" 0 604800 "rsec") 100 7 42
      (by decide) rfl⟩

/-- Claim C10, as stated, is false on the code: the random outcome
`Math.random() = 2⁻⁵³` (numerator `m = 1`) makes
`Math.random().toString(36).slice(2)` a 21-character string (ten leading
zeros from the magnitude of the value, then the significant digits), so
the generated username has 26 characters — beyond the User schema's
20-character maximum for usernames. -/
theorem C10_username_can_exceed_schema_max :
    (generateUserName 1).length = 26 ∧
    ¬ (generateUserName 1).length ≤ 20 := by
  exact ⟨by decide, by decide⟩

/-- Claim C10, amended: for every outcome of the random source the
username begins with the `user-` marker and has at least 5 characters
(so it always meets the schema's 3-character minimum), but the
20-character maximum is not guaranteed. -/
theorem C10_username_has_marker_and_min_length (m : Nat) :
    (∃ s, generateUserName m = "user-" ++ s) ∧
    5 ≤ (generateUserName m).length ∧
    3 ≤ (generateUserName m).length := by
  have h5 : ("user-" : String).length = 5 := rfl
  refine ⟨⟨mathRandomString36Slice2 m, rfl⟩, ?_, ?_⟩ <;>
  · rw [generateUserName, String.length_append]
    omega

end BlogApi
